import Mathlib

/-!
Shallow embedding of the photo-categorizer application (`working_app.py`)
and verification of its specification.

The application wraps three filesystem operations around an external face
detector: `detect_faces_opencv`, `register_person` and `process_photo`, plus
thin UI glue (guards and a batch loop).  The filesystem is modelled as a pair
of functions from segment-list paths to directory flags and file contents;
the external OpenCV primitives are modelled as an abstract record `CV`, so
every theorem quantifies over the detector behaviour.
-/

namespace PhotoCategorizer

/-- File contents as an opaque byte sequence. -/
abbrev Bytes := List Nat

/-- A filesystem path as a list of segments, relative to the working
directory. -/
abbrev Path := List String

/-- Last path segment, as in Python `Path(p).name`. -/
def basename (p : Path) : String := p.getLastD ""

/-- A filesystem state: which paths are directories, and the contents of each
file. -/
structure FS where
  dirs : Path → Bool
  files : Path → Option Bytes

/-- The empty relative path (the working directory) always is a directory. -/
def FS.isDir (fs : FS) (p : Path) : Bool := p.isEmpty || fs.dirs p

def FS.isFile (fs : FS) (p : Path) : Bool := (fs.files p).isSome

/-- `Path(p).mkdir(exist_ok=True)`: succeeds silently when `p` already is a
directory; fails when `p` is an existing file (`FileExistsError`) or when the
parent directory is missing (`FileNotFoundError`); otherwise records the new
directory. -/
def FS.mkdirExistOk (fs : FS) (p : Path) : Except String FS :=
  if fs.isDir p then .ok fs
  else if fs.isFile p then .error "FileExistsError"
  else if fs.isDir p.dropLast then
    .ok { fs with dirs := fun q => if q = p then true else fs.dirs q }
  else .error "FileNotFoundError"

/-- Overwrite the file at `p` with contents `b`. -/
def FS.writeFile (fs : FS) (p : Path) (b : Bytes) : FS :=
  { fs with files := fun q => if q = p then some b else fs.files q }

/-- `shutil.copy(src, dst)`: reads `src` (failing when it is missing); when
`dst` is an existing directory the file lands inside it under the basename of
`src`; otherwise `dst` itself is written, overwriting any previous file,
provided the parent directory of `dst` exists. -/
def FS.copy (fs : FS) (src dst : Path) : Except String FS :=
  match fs.files src with
  | none => .error "FileNotFoundError"
  | some b =>
    if fs.isDir dst then .ok (fs.writeFile (dst ++ [basename src]) b)
    else if fs.isDir dst.dropLast then .ok (fs.writeFile dst b)
    else .error "NotADirectoryError"

/-- `os.unlink(p)`: removes the file at `p`, failing when it is absent. -/
def FS.unlink (fs : FS) (p : Path) : Except String FS :=
  if (fs.files p).isSome then
    .ok { fs with files := fun q => if q = p then none else fs.files q }
  else .error "FileNotFoundError"

/-- A detected face region: x, y, width, height. -/
abbrev Rect := Nat × Nat × Nat × Nat

/-- An in-memory decoded image (opaque representation). -/
abbrev Img := List Nat

/-- The external OpenCV primitives used by the application.  `imread` returns
`none` on decode failure (it raises no exception); the conversion and the
cascade detector may raise, which the application catches. -/
structure CV where
  imread : Bytes → Option Img
  cvtColorGray : Img → Except String Img
  detectMultiScale : Img → Rat → Nat → Nat × Nat → Except String (List Rect)

/-- `SimpleFaceCategorizer.detect_faces_opencv`: reads and decodes the image
(`cv2.imread`, which yields `None` both for a missing path and for undecodable
bytes, upon which the function returns the empty list with no diagnostic),
converts to grayscale and runs the cascade detector with the fixed parameters
`scaleFactor=1.1`, `minNeighbors=5`, `minSize=(30, 30)`.  Any exception raised
inside the `try` block is caught, reported via `st.error` and turned into the
empty list.  The second component collects the `st.error` diagnostics. -/
def detect_faces_opencv (cv : CV) (fs : FS) (image_path : Path) :
    List Rect × List String :=
  match (fs.files image_path).bind cv.imread with
  | none => ([], [])
  | some img =>
    match cv.cvtColorGray img with
    | .error e => ([], ["Error detecting faces: " ++ e])
    | .ok gray =>
      match cv.detectMultiScale gray (11 / 10) 5 (30, 30) with
      | .error e => ([], ["Error detecting faces: " ++ e])
      | .ok faces => (faces, [])

/-- The filename `f"sample_{k}.jpg"`. -/
def sampleName (k : Nat) : String := "sample_" ++ toString k ++ ".jpg"

/-- Destination path of the k-th (1-based) registration sample. -/
def sampleDest (dir : Path) (k : Nat) : Path := dir ++ [sampleName k]

/-- The `for idx, img_path in enumerate(sample_images)` loop of
`register_person`: `idx` is the 0-based position of the next image and each
image is copied to `sample_{idx+1}.jpg`. -/
def copySamples (dir : Path) : FS → Nat → List Path → Except String FS
  | fs, _, [] => .ok fs
  | fs, idx, img :: rest =>
    match fs.copy img (sampleDest dir (idx + 1)) with
    | .error e => .error e
    | .ok fs1 => copySamples dir fs1 (idx + 1) rest

/-- The folder `data/registered/<name>`. -/
def registeredDir (name : String) : Path := ["data", "registered", name]

/-- `SimpleFaceCategorizer.register_person`: ensures the person folder exists
and copies each sample to `sample_{idx+1}.jpg`; returns `True` when no
exception occurred. -/
def register_person (fs : FS) (name : String) (sample_images : List Path) :
    Except String (FS × Bool) :=
  match fs.mkdirExistOk (registeredDir name) with
  | .error e => .error e
  | .ok fs1 =>
    match copySamples (registeredDir name) fs1 0 sample_images with
    | .error e => .error e
    | .ok fs2 => .ok (fs2, true)

/-- The result dictionary of `process_photo`.  The `no_faces` branch carries
neither a `person` nor a `faces_detected` key, modelled by `none`. -/
structure ResultRecord where
  status : String
  person : Option String
  faces_detected : Option Nat
  dest_path : Path
deriving DecidableEq, Repr

/-- The folder `data/categorized/<label>`. -/
def categorizedDir (label : String) : Path := ["data", "categorized", label]

/-- `SimpleFaceCategorizer.process_photo`: runs the detector; with at least
one face the photo is copied to `data/categorized/<person_name>` keeping its
basename and a `success` record is returned; with no face it is copied to
`data/categorized/unknown` and a `no_faces` record without `person` and
`faces_detected` fields is returned. -/
def process_photo (cv : CV) (fs : FS) (image_path : Path) (person_name : String) :
    Except String (FS × ResultRecord) :=
  let faces := (detect_faces_opencv cv fs image_path).1
  if 0 < faces.length then
    match fs.mkdirExistOk (categorizedDir person_name) with
    | .error e => .error e
    | .ok fs1 =>
      match fs1.copy image_path (categorizedDir person_name ++ [basename image_path]) with
      | .error e => .error e
      | .ok fs2 =>
        .ok (fs2, ⟨"success", some person_name, some faces.length,
          categorizedDir person_name ++ [basename image_path]⟩)
  else
    match fs.mkdirExistOk (categorizedDir "unknown") with
    | .error e => .error e
    | .ok fs1 =>
      match fs1.copy image_path (categorizedDir "unknown" ++ [basename image_path]) with
      | .error e => .error e
      | .ok fs2 =>
        .ok (fs2, ⟨"no_faces", none, none,
          categorizedDir "unknown" ++ [basename image_path]⟩)

/-- `SimpleFaceCategorizer.__init__`: creates `data`, `data/registered` and
`data/categorized`, each with `exist_ok=True`. -/
def initCategorizer (fs : FS) : Except String FS :=
  match fs.mkdirExistOk ["data"] with
  | .error e => .error e
  | .ok fs1 =>
    match fs1.mkdirExistOk ["data", "registered"] with
    | .error e => .error e
    | .ok fs2 => fs2.mkdirExistOk ["data", "categorized"]

/-- The loop in the register branch that writes each uploaded sample to a
temporary file `tmp_dir/<uploadName>` and collects the paths in order. -/
def writeUploads (tmp_dir : Path) : FS → List (String × Bytes) → FS × List Path
  | fs, [] => (fs, [])
  | fs, (n, b) :: rest =>
    let p := tmp_dir ++ [n]
    let (fs2, ps) := writeUploads tmp_dir (fs.writeFile p b) rest
    (fs2, p :: ps)

/-- The `Register Person` button handler: the guard
`if st.button(...) and person_name and uploaded_samples` skips everything when
the name is empty or no sample was uploaded (Python truthiness); otherwise the
samples are written to temporary files and `register_person` is called. -/
def registerButton (fs : FS) (tmp_dir : Path) (person_name : String)
    (uploaded_samples : List (String × Bytes)) : Except String (FS × Bool) :=
  if person_name = "" ∨ uploaded_samples = [] then .ok (fs, false)
  else
    let r := writeUploads tmp_dir fs uploaded_samples
    register_person r.1 person_name r.2

/-- The UI mapping from the selectbox choice to the label handed to
`process_photo`: the literal choice `Unknown` becomes the folder label
`unknown`, any other choice is a registered person name passed through. -/
def chooseLabel (selected : String) : String :=
  if selected = "Unknown" then "unknown" else selected

/-- The `Categorize Photos` batch loop: each upload (bytes paired with the
fresh temporary path that `NamedTemporaryFile` picked for it) is written to
its temporary file, processed under `chooseLabel selected`, and the temporary
file is unlinked; results are collected in order. -/
def categorizeLoop (cv : CV) (selected : String) :
    FS → List (Bytes × Path) → Except String (FS × List ResultRecord)
  | fs, [] => .ok (fs, [])
  | fs, (bytes, tmp) :: rest =>
    match process_photo cv (fs.writeFile tmp bytes) tmp (chooseLabel selected) with
    | .error e => .error e
    | .ok (fs2, r) =>
      match fs2.unlink tmp with
      | .error e => .error e
      | .ok fs3 =>
        match categorizeLoop cv selected fs3 rest with
        | .error e => .error e
        | .ok (fs4, rs) => .ok (fs4, r :: rs)

/-- The categorize section of the page: nothing at all happens when no file
was uploaded (`if uploaded_files:`) or when no person is registered yet
(the `if persons:` warning branch). -/
def categorizeButton (cv : CV) (fs : FS) (uploaded_files : List (Bytes × Path))
    (persons : List String) (selected : String) :
    Except String (FS × List ResultRecord) :=
  if uploaded_files = [] ∨ persons = [] then .ok (fs, [])
  else categorizeLoop cv selected fs uploaded_files

/-! ### Basic filesystem lemmas -/

theorem append_single_ne (l : List String) (a : String) : l ++ [a] ≠ l := by
  intro h
  have hlen := congrArg List.length h
  simp at hlen

theorem dropLast_append_single (l : List String) (a : String) :
    (l ++ [a]).dropLast = l := by
  simp

theorem writeFile_files (fs : FS) (p : Path) (b : Bytes) (q : Path) :
    (fs.writeFile p b).files q = if q = p then some b else fs.files q := rfl

theorem writeFile_isDir (fs : FS) (p : Path) (b : Bytes) (q : Path) :
    (fs.writeFile p b).isDir q = fs.isDir q := rfl

theorem mkdirExistOk_ok (fs : FS) (p : Path)
    (hf : fs.isFile p = false) (hp : fs.isDir p.dropLast = true) :
    ∃ fs', fs.mkdirExistOk p = .ok fs' ∧ fs'.files = fs.files ∧
      ∀ q, fs'.isDir q = (decide (q = p) || fs.isDir q) := by
  unfold FS.mkdirExistOk
  by_cases h : fs.isDir p = true
  · refine ⟨fs, by simp [h], rfl, ?_⟩
    intro q
    by_cases hq : q = p
    · subst hq
      simp [h]
    · simp [hq]
  · refine ⟨{ fs with dirs := fun q => if q = p then true else fs.dirs q },
      by simp [h, hf, hp], rfl, ?_⟩
    intro q
    by_cases hq : q = p
    · subst hq
      simp [FS.isDir]
    · simp [FS.isDir, hq]

theorem mkdirExistOk_mono (fs : FS) (p : Path) (fs' : FS)
    (h : fs.mkdirExistOk p = .ok fs') :
    fs'.isDir p = true ∧ fs'.files = fs.files ∧
      ∀ q, fs.isDir q = true → fs'.isDir q = true := by
  unfold FS.mkdirExistOk at h
  by_cases h1 : fs.isDir p = true
  · simp [h1] at h
    subst h
    exact ⟨h1, rfl, fun q hq => hq⟩
  · by_cases h2 : fs.isFile p = true
    · simp [h1, h2] at h
    · by_cases h3 : fs.isDir p.dropLast = true
      · simp [h1, h2, h3] at h
        subst h
        refine ⟨by simp [FS.isDir], rfl, ?_⟩
        intro q hq
        by_cases hqp : q = p
        · simp [FS.isDir, hqp]
        · simpa [FS.isDir, hqp] using hq
      · simp [h1, h2, h3] at h

theorem copy_ok (fs : FS) (src dst : Path) (b : Bytes)
    (hs : fs.files src = some b) (hd : fs.isDir dst = false)
    (hp : fs.isDir dst.dropLast = true) :
    fs.copy src dst = .ok (fs.writeFile dst b) := by
  unfold FS.copy
  rw [hs]
  simp [hd, hp]

/-! ### Detector lemmas -/

theorem detect_faces_none (cv : CV) (fs : FS) (p : Path)
    (h : (fs.files p).bind cv.imread = none) :
    detect_faces_opencv cv fs p = ([], []) := by
  unfold detect_faces_opencv
  rw [h]

theorem detect_faces_ok (cv : CV) (fs : FS) (p : Path) (b : Bytes)
    (img gray : Img) (faces : List Rect)
    (hb : fs.files p = some b) (hi : cv.imread b = some img)
    (hg : cv.cvtColorGray img = .ok gray)
    (hd : cv.detectMultiScale gray (11 / 10) 5 (30, 30) = .ok faces) :
    detect_faces_opencv cv fs p = (faces, []) := by
  unfold detect_faces_opencv
  rw [hb]
  simp [hi, hg, hd]

theorem detect_faces_congr (cv : CV) (fs fs' : FS) (p p' : Path)
    (h : fs.files p = fs'.files p') :
    detect_faces_opencv cv fs p = detect_faces_opencv cv fs' p' := by
  unfold detect_faces_opencv
  rw [h]

/-! ### Characterization of `process_photo` -/

/-- A successful `process_photo` call in full: `lab` is the effective folder
label (the requested label with at least one face, the literal `unknown`
otherwise); the photo lands at `data/categorized/<lab>/<basename>` and nothing
else changes among the files. -/
theorem process_photo_ok (cv : CV) (fs : FS) (p : Path) (label lab : String)
    (b : Bytes)
    (hb : fs.files p = some b)
    (hlab : lab =
      (if 0 < (detect_faces_opencv cv fs p).1.length then label else "unknown"))
    (hcat : fs.isDir ["data", "categorized"] = true)
    (hfl : fs.isFile (categorizedDir lab) = false)
    (hnd : fs.isDir (categorizedDir lab ++ [basename p]) = false) :
    ∃ fs', process_photo cv fs p label = .ok (fs',
        if 0 < (detect_faces_opencv cv fs p).1.length then
          ⟨"success", some label, some (detect_faces_opencv cv fs p).1.length,
            categorizedDir lab ++ [basename p]⟩
        else ⟨"no_faces", none, none, categorizedDir lab ++ [basename p]⟩) ∧
      (∀ q, fs'.files q =
        if q = categorizedDir lab ++ [basename p] then some b else fs.files q) ∧
      (∀ q, fs'.isDir q = (decide (q = categorizedDir lab) || fs.isDir q)) := by
  by_cases hn : 0 < (detect_faces_opencv cv fs p).1.length
  · rw [if_pos hn] at hlab
    subst hlab
    obtain ⟨fs1, hmk, hfiles1, hdirs1⟩ := mkdirExistOk_ok fs (categorizedDir lab)
      hfl (by simpa [categorizedDir] using hcat)
    have hsrc1 : fs1.files p = some b := by rw [hfiles1]; exact hb
    have hdst1 : fs1.isDir (categorizedDir lab ++ [basename p]) = false := by
      rw [hdirs1]
      simp [append_single_ne, hnd]
    have hpar1 : fs1.isDir (categorizedDir lab ++ [basename p]).dropLast = true := by
      rw [hdirs1]
      simp [dropLast_append_single]
    refine ⟨fs1.writeFile (categorizedDir lab ++ [basename p]) b, ?_, ?_, ?_⟩
    · unfold process_photo
      simp only [if_pos hn, hmk, copy_ok fs1 p (categorizedDir lab ++ [basename p]) b
        hsrc1 hdst1 hpar1]
    · intro q
      rw [writeFile_files, hfiles1]
    · intro q
      rw [writeFile_isDir, hdirs1]
  · rw [if_neg hn] at hlab
    subst hlab
    obtain ⟨fs1, hmk, hfiles1, hdirs1⟩ := mkdirExistOk_ok fs (categorizedDir "unknown")
      hfl (by simpa [categorizedDir] using hcat)
    have hsrc1 : fs1.files p = some b := by rw [hfiles1]; exact hb
    have hdst1 : fs1.isDir (categorizedDir "unknown" ++ [basename p]) = false := by
      rw [hdirs1]
      simp [append_single_ne, hnd]
    have hpar1 : fs1.isDir (categorizedDir "unknown" ++ [basename p]).dropLast = true := by
      rw [hdirs1]
      simp [dropLast_append_single]
    refine ⟨fs1.writeFile (categorizedDir "unknown" ++ [basename p]) b, ?_, ?_, ?_⟩
    · unfold process_photo
      simp only [if_neg hn, hmk,
        copy_ok fs1 p (categorizedDir "unknown" ++ [basename p]) b hsrc1 hdst1 hpar1]
    · intro q
      rw [writeFile_files, hfiles1]
    · intro q
      rw [writeFile_isDir, hdirs1]

/-! ### Concrete instances used by the witnesses -/

/-- A detector that decodes any byte sequence as itself and reports one face
per byte. -/
def cvPerByte : CV :=
  ⟨fun b => some b, fun i => .ok i, fun g _ _ _ => .ok (g.map (fun _ => (0, 0, 30, 30)))⟩

/-- A detector that decodes everything but never finds a face. -/
def cvZero : CV := ⟨fun b => some b, fun i => .ok i, fun _ _ _ _ => .ok []⟩

/-- A detector whose decoder always fails, as `cv2.imread` does on unreadable
bytes. -/
def cvDecodeFail : CV := ⟨fun _ => none, fun i => .ok i, fun _ _ _ _ => .ok []⟩

/-- Example filesystem: the three application folders plus one uploaded
photo at `tmp/pic.jpg`. -/
def fsExample : FS :=
  ⟨fun q => decide (q = ["data"] ∨ q = ["data", "registered"] ∨ q = ["data", "categorized"]),
   fun q => if q = ["tmp", "pic.jpg"] then some [1, 2, 3] else none⟩

/-- Filesystem for the registration scenario: the three application folders
plus two uploaded sample photos. -/
def fsRegister : FS :=
  ⟨fun q => decide (q = ["data"] ∨ q = ["data", "registered"] ∨ q = ["data", "categorized"]),
   fun q =>
    if q = ["up", "a.jpg"] then some [10]
    else if q = ["up", "b.jpg"] then some [20] else none⟩

/-! ### Claims -/

/-- C1: for every readable image path and label, `process_photo` with a
positive detected face count copies the source image into
`categorized/<label>` preserving the basename and returns a `success` record
carrying the label, the face count and the destination; with face count zero
it copies into `categorized/unknown` and returns a `no_faces` record with the
destination only (no person and no face-count field). -/
theorem C1_process_photo_branches (cv : CV) (fs : FS) (p : Path) (label : String)
    (b : Bytes) (n : Nat)
    (hb : fs.files p = some b)
    (hn : n = (detect_faces_opencv cv fs p).1.length)
    (hcat : fs.isDir ["data", "categorized"] = true)
    (hfl : fs.isFile (categorizedDir label) = false)
    (hfu : fs.isFile (categorizedDir "unknown") = false)
    (hdl : fs.isDir (categorizedDir label ++ [basename p]) = false)
    (hdu : fs.isDir (categorizedDir "unknown" ++ [basename p]) = false) :
    (0 < n → ∃ fs', process_photo cv fs p label =
        .ok (fs', ⟨"success", some label, some n, categorizedDir label ++ [basename p]⟩) ∧
      fs'.files (categorizedDir label ++ [basename p]) = some b) ∧
    (n = 0 → ∃ fs', process_photo cv fs p label =
        .ok (fs', ⟨"no_faces", none, none, categorizedDir "unknown" ++ [basename p]⟩) ∧
      fs'.files (categorizedDir "unknown" ++ [basename p]) = some b) := by
  subst hn
  constructor
  · intro hpos
    obtain ⟨fs', hrun, hfiles, _⟩ := process_photo_ok cv fs p label label b hb
      (by rw [if_pos hpos]) hcat hfl hdl
    rw [if_pos hpos] at hrun
    exact ⟨fs', hrun, by rw [hfiles]; simp⟩
  · intro hzero
    have hneg : ¬ 0 < (detect_faces_opencv cv fs p).1.length := by omega
    obtain ⟨fs', hrun, hfiles, _⟩ := process_photo_ok cv fs p label "unknown" b hb
      (by rw [if_neg hneg]) hcat hfu hdu
    rw [if_neg hneg] at hrun
    exact ⟨fs', hrun, by rw [hfiles]; simp⟩

/-- Witness for C1 with a three-face photo and the label `alice`. -/
theorem C1_witness :
    (0 < 3 → ∃ fs', process_photo cvPerByte fsExample ["tmp", "pic.jpg"] "alice" =
        .ok (fs', ⟨"success", some "alice", some 3,
          categorizedDir "alice" ++ [basename ["tmp", "pic.jpg"]]⟩) ∧
      fs'.files (categorizedDir "alice" ++ [basename ["tmp", "pic.jpg"]]) = some [1, 2, 3]) ∧
    (3 = 0 → ∃ fs', process_photo cvPerByte fsExample ["tmp", "pic.jpg"] "alice" =
        .ok (fs', ⟨"no_faces", none, none,
          categorizedDir "unknown" ++ [basename ["tmp", "pic.jpg"]]⟩) ∧
      fs'.files (categorizedDir "unknown" ++ [basename ["tmp", "pic.jpg"]]) = some [1, 2, 3]) :=
  C1_process_photo_branches cvPerByte fsExample ["tmp", "pic.jpg"] "alice" [1, 2, 3] 3
    (by decide) (by decide) (by decide) (by decide) (by decide) (by decide) (by decide)

/-- C2: every categorized photo lands under exactly one label folder, chosen
solely by whether the face count is positive together with the caller label;
with zero faces the folder is `unknown` whatever the label, and no other file
of the filesystem changes. -/
theorem C2_single_folder_invariant (cv : CV) (fs : FS) (p : Path) (label : String)
    (b : Bytes) (n : Nat)
    (hb : fs.files p = some b)
    (hn : n = (detect_faces_opencv cv fs p).1.length)
    (hcat : fs.isDir ["data", "categorized"] = true)
    (hfl : fs.isFile (categorizedDir label) = false)
    (hfu : fs.isFile (categorizedDir "unknown") = false)
    (hdl : fs.isDir (categorizedDir label ++ [basename p]) = false)
    (hdu : fs.isDir (categorizedDir "unknown" ++ [basename p]) = false) :
    ∃ fs' r, process_photo cv fs p label = .ok (fs', r) ∧
      r.dest_path =
        (if 0 < n then categorizedDir label else categorizedDir "unknown") ++ [basename p] ∧
      (∀ q, q ≠ r.dest_path → fs'.files q = fs.files q) ∧
      fs'.files r.dest_path = some b := by
  subst hn
  by_cases hpos : 0 < (detect_faces_opencv cv fs p).1.length
  · obtain ⟨fs', hrun, hfiles, _⟩ := process_photo_ok cv fs p label label b hb
      (by rw [if_pos hpos]) hcat hfl hdl
    rw [if_pos hpos] at hrun
    refine ⟨fs', _, hrun, by simp [hpos], ?_, by rw [hfiles]; simp⟩
    intro q hq
    rw [hfiles, if_neg hq]
  · obtain ⟨fs', hrun, hfiles, _⟩ := process_photo_ok cv fs p label "unknown" b hb
      (by rw [if_neg hpos]) hcat hfu hdu
    rw [if_neg hpos] at hrun
    refine ⟨fs', _, hrun, by simp [hpos], ?_, by rw [hfiles]; simp⟩
    intro q hq
    rw [hfiles, if_neg hq]

/-- Witness for C2 with a zero-face photo sorted to `unknown` although the
caller chose the label `bob`. -/
theorem C2_witness :
    ∃ fs' r, process_photo cvZero fsExample ["tmp", "pic.jpg"] "bob" = .ok (fs', r) ∧
      r.dest_path =
        (if 0 < 0 then categorizedDir "bob" else categorizedDir "unknown") ++
          [basename ["tmp", "pic.jpg"]] ∧
      (∀ q, q ≠ r.dest_path → fs'.files q = fsExample.files q) ∧
      fs'.files r.dest_path = some [1, 2, 3] :=
  C2_single_folder_invariant cvZero fsExample ["tmp", "pic.jpg"] "bob" [1, 2, 3] 0
    (by decide) (by decide) (by decide) (by decide) (by decide) (by decide) (by decide)

/-- C3, counterexample: at a concrete input whose bytes the decoder rejects,
`detect_faces_opencv` returns zero faces but emits NO diagnostic at all: the
`img is None` early return bypasses the `st.error` call, which only runs for
exceptions raised inside the `try` block.  This refutes the part of the claim
that a diagnostic is reported to the caller on decode failure. -/
theorem C3_counterexample :
    (fsExample.files ["tmp", "pic.jpg"]).bind cvDecodeFail.imread = none ∧
    detect_faces_opencv cvDecodeFail fsExample ["tmp", "pic.jpg"] = ([], []) := by
  constructor
  · decide
  · decide

/-- C3, amended: for every input path whose image cannot be decoded,
`detect_faces_opencv` returns an empty result (zero faces) and emits no
diagnostic; the decode failure is recovered locally and is never fatal to the
operation. -/
theorem C3_decode_failure_amended (cv : CV) (fs : FS) (p : Path)
    (h : (fs.files p).bind cv.imread = none) :
    detect_faces_opencv cv fs p = ([], []) :=
  detect_faces_none cv fs p h

/-- Witness for the amended C3. -/
theorem C3_witness :
    detect_faces_opencv cvDecodeFail fsExample ["other", "landscape.png"] = ([], []) :=
  C3_decode_failure_amended cvDecodeFail fsExample ["other", "landscape.png"] (by decide)

/-- C4: when the decoded, grayscale-converted image is handed to the cascade
detector with exactly the fixed parameters scaleFactor `1.1`, minNeighbors
`5` and minSize `30×30`, the result of `detect_faces_opencv` is precisely
that detector output, and with at least one region `process_photo` returns
`success` with `faces_detected` equal to the region count. -/
theorem C4_detector_params (cv : CV) (fs : FS) (p : Path) (label : String)
    (b : Bytes) (img gray : Img) (faces : List Rect)
    (hb : fs.files p = some b)
    (hi : cv.imread b = some img)
    (hg : cv.cvtColorGray img = .ok gray)
    (hd : cv.detectMultiScale gray (11 / 10) 5 (30, 30) = .ok faces)
    (hcat : fs.isDir ["data", "categorized"] = true)
    (hfl : fs.isFile (categorizedDir label) = false)
    (hdl : fs.isDir (categorizedDir label ++ [basename p]) = false)
    (hpos : 0 < faces.length) :
    detect_faces_opencv cv fs p = (faces, []) ∧
    ∃ fs', process_photo cv fs p label = .ok (fs',
      ⟨"success", some label, some faces.length,
        categorizedDir label ++ [basename p]⟩) := by
  have hdet := detect_faces_ok cv fs p b img gray faces hb hi hg hd
  refine ⟨hdet, ?_⟩
  have hpos' : 0 < (detect_faces_opencv cv fs p).1.length := by rw [hdet]; exact hpos
  obtain ⟨fs', hrun, _, _⟩ := process_photo_ok cv fs p label label b hb
    (by rw [if_pos hpos']) hcat hfl hdl
  rw [if_pos hpos'] at hrun
  rw [hdet] at hrun
  exact ⟨fs', hrun⟩

/-- Witness for C4: a one-byte photo produces one region under `cvPerByte`. -/
theorem C4_witness :
    detect_faces_opencv cvPerByte fsExample ["tmp", "pic.jpg"] =
      ([(0, 0, 30, 30), (0, 0, 30, 30), (0, 0, 30, 30)], []) ∧
    ∃ fs', process_photo cvPerByte fsExample ["tmp", "pic.jpg"] "team" = .ok (fs',
      ⟨"success", some "team", some [(0, 0, 30, 30), (0, 0, 30, 30), (0, 0, 30, 30)].length,
        categorizedDir "team" ++ [basename ["tmp", "pic.jpg"]]⟩) :=
  C4_detector_params cvPerByte fsExample ["tmp", "pic.jpg"] "team" [1, 2, 3] [1, 2, 3]
    [1, 2, 3] [(0, 0, 30, 30), (0, 0, 30, 30), (0, 0, 30, 30)]
    (by decide) (by decide) rfl rfl (by decide) (by decide) (by decide)
    (by decide)

/-- C10: with the label `unknown` — which the UI passes whenever the user
selects `Unknown` — a photo with at least one face yields `success` and a
photo with none yields `no_faces`, but both are copied into the very same
folder `categorized/unknown`, so the destination folder alone does not
determine the returned status. -/
theorem C10_unknown_label_success (cv : CV) (fs : FS) (p : Path) (b : Bytes) (n : Nat)
    (hb : fs.files p = some b)
    (hn : n = (detect_faces_opencv cv fs p).1.length)
    (hcat : fs.isDir ["data", "categorized"] = true)
    (hfu : fs.isFile (categorizedDir "unknown") = false)
    (hdu : fs.isDir (categorizedDir "unknown" ++ [basename p]) = false) :
    chooseLabel "Unknown" = "unknown" ∧
    (0 < n → ∃ fs', process_photo cv fs p "unknown" =
        .ok (fs', ⟨"success", some "unknown", some n,
          categorizedDir "unknown" ++ [basename p]⟩) ∧
      fs'.files (categorizedDir "unknown" ++ [basename p]) = some b) ∧
    (n = 0 → ∃ fs', process_photo cv fs p "unknown" =
        .ok (fs', ⟨"no_faces", none, none,
          categorizedDir "unknown" ++ [basename p]⟩) ∧
      fs'.files (categorizedDir "unknown" ++ [basename p]) = some b) := by
  subst hn
  refine ⟨rfl, ?_, ?_⟩
  · intro hpos
    obtain ⟨fs', hrun, hfiles, _⟩ := process_photo_ok cv fs p "unknown" "unknown" b hb
      (by rw [if_pos hpos]) hcat hfu hdu
    rw [if_pos hpos] at hrun
    exact ⟨fs', hrun, by rw [hfiles]; simp⟩
  · intro hzero
    have hneg : ¬ 0 < (detect_faces_opencv cv fs p).1.length := by omega
    obtain ⟨fs', hrun, hfiles, _⟩ := process_photo_ok cv fs p "unknown" "unknown" b hb
      (by rw [if_neg hneg]) hcat hfu hdu
    rw [if_neg hneg] at hrun
    exact ⟨fs', hrun, by rw [hfiles]; simp⟩

/-- Witness for C10 with a photo in which the detector finds three faces. -/
theorem C10_witness :
    chooseLabel "Unknown" = "unknown" ∧
    (0 < 3 → ∃ fs', process_photo cvPerByte fsExample ["tmp", "pic.jpg"] "unknown" =
        .ok (fs', ⟨"success", some "unknown", some 3,
          categorizedDir "unknown" ++ [basename ["tmp", "pic.jpg"]]⟩) ∧
      fs'.files (categorizedDir "unknown" ++ [basename ["tmp", "pic.jpg"]]) = some [1, 2, 3]) ∧
    (3 = 0 → ∃ fs', process_photo cvPerByte fsExample ["tmp", "pic.jpg"] "unknown" =
        .ok (fs', ⟨"no_faces", none, none,
          categorizedDir "unknown" ++ [basename ["tmp", "pic.jpg"]]⟩) ∧
      fs'.files (categorizedDir "unknown" ++ [basename ["tmp", "pic.jpg"]]) = some [1, 2, 3]) :=
  C10_unknown_label_success cvPerByte fsExample ["tmp", "pic.jpg"] [1, 2, 3] 3
    (by decide) (by decide) (by decide) (by decide) (by decide)

/-! ### Registration lemmas -/

theorem sampleDest_dropLast (dir : Path) (k : Nat) :
    (sampleDest dir k).dropLast = dir :=
  dropLast_append_single dir (sampleName k)

theorem sampleDest_name_eq {dir : Path} {j k : Nat}
    (h : sampleDest dir j = sampleDest dir k) : sampleName j = sampleName k := by
  unfold sampleDest at h
  have h2 := List.append_cancel_left h
  simpa using h2

theorem sampleDest_ne_dir (dir : Path) (k : Nat) : sampleDest dir k ≠ dir :=
  append_single_ne dir (sampleName k)

/-- Full characterization of a successful `copySamples` run starting at
0-based position `idx`: each image is written to its 1-based sample slot,
every other file keeps its content, and no directory changes. -/
theorem copySamples_ok (dir : Path) (imgs : List Path) :
    ∀ (fs : FS) (idx : Nat),
    fs.isDir dir = true →
    (∀ k, k < imgs.length → fs.isDir (sampleDest dir (idx + k + 1)) = false) →
    (∀ q, q ∈ imgs → (fs.files q).isSome = true) →
    (∀ q, q ∈ imgs → ∀ k, k < imgs.length → q ≠ sampleDest dir (idx + k + 1)) →
    (∀ j, j < imgs.length → ∀ k, k < imgs.length →
      sampleName (idx + j + 1) = sampleName (idx + k + 1) → j = k) →
    ∃ fs', copySamples dir fs idx imgs = .ok fs' ∧
      (∀ k, ∀ hk : k < imgs.length,
        fs'.files (sampleDest dir (idx + k + 1)) = fs.files (imgs.get ⟨k, hk⟩)) ∧
      (∀ q, (∀ k, k < imgs.length → q ≠ sampleDest dir (idx + k + 1)) →
        fs'.files q = fs.files q) ∧
      (∀ q, fs'.isDir q = fs.isDir q) := by
  induction imgs with
  | nil =>
    intro fs idx _ _ _ _ _
    exact ⟨fs, rfl, fun k hk => absurd hk (Nat.not_lt_zero k),
      fun q _ => rfl, fun q => rfl⟩
  | cons img rest ih =>
    intro fs idx hdir hnd hsrc hdisj hinj
    have harith : ∀ k, idx + 1 + k + 1 = idx + (k + 1) + 1 := fun k => by omega
    obtain ⟨b, hb⟩ := Option.isSome_iff_exists.mp (hsrc img (List.mem_cons_self img rest))
    have hstep : fs.copy img (sampleDest dir (idx + 1)) =
        .ok (fs.writeFile (sampleDest dir (idx + 1)) b) :=
      copy_ok fs img (sampleDest dir (idx + 1)) b hb
        (hnd 0 (Nat.succ_pos rest.length))
        (by rw [sampleDest_dropLast]; exact hdir)
    obtain ⟨fs', hrun, hget, hframe, hdirs⟩ := ih (fs.writeFile (sampleDest dir (idx + 1)) b)
      (idx + 1)
      (by rw [writeFile_isDir]; exact hdir)
      (by
        intro k hk
        rw [writeFile_isDir, harith k]
        exact hnd (k + 1) (Nat.succ_lt_succ hk))
      (by
        intro q hq
        rw [writeFile_files,
          if_neg (hdisj q (List.mem_cons_of_mem img hq) 0 (Nat.succ_pos rest.length))]
        exact hsrc q (List.mem_cons_of_mem img hq))
      (by
        intro q hq k hk
        rw [harith k]
        exact hdisj q (List.mem_cons_of_mem img hq) (k + 1) (Nat.succ_lt_succ hk))
      (by
        intro j hj k hk h
        rw [harith j, harith k] at h
        have := hinj (j + 1) (Nat.succ_lt_succ hj) (k + 1) (Nat.succ_lt_succ hk) h
        omega)
    have hdest0 : ∀ k, k < rest.length →
        sampleDest dir (idx + 1) ≠ sampleDest dir (idx + 1 + k + 1) := by
      intro k hk heq
      have hname := sampleDest_name_eq heq
      rw [harith k] at hname
      have := hinj 0 (Nat.succ_pos rest.length) (k + 1) (Nat.succ_lt_succ hk) hname
      omega
    refine ⟨fs', ?_, ?_, ?_, ?_⟩
    · simp only [copySamples, hstep]
      exact hrun
    · intro k hk
      cases k with
      | zero =>
        rw [hframe (sampleDest dir (idx + 1)) hdest0, writeFile_files, if_pos rfl]
        exact hb.symm
      | succ k =>
        have hk' : k < rest.length := Nat.lt_of_succ_lt_succ hk
        have h3 := hget k hk'
        rw [harith k] at h3
        rw [h3, writeFile_files,
          if_neg (hdisj (rest.get ⟨k, hk'⟩)
            (List.mem_cons_of_mem img (List.get_mem rest k hk'))
            0 (Nat.succ_pos rest.length))]
        rfl
    · intro q hq
      have h4 : ∀ k, k < rest.length → q ≠ sampleDest dir (idx + 1 + k + 1) := by
        intro k hk
        rw [harith k]
        exact hq (k + 1) (Nat.succ_lt_succ hk)
      rw [hframe q h4, writeFile_files, if_neg (hq 0 (Nat.succ_pos rest.length))]
    · intro q
      rw [hdirs, writeFile_isDir]

/-- C5: `register_person` ensures the person folder exists, copies the k-th
sample (1-based) to `sample_k.jpg` in it, returns success, and — on a folder
holding no prior files — the files present under the folder afterwards are
exactly the `sample_1.jpg .. sample_N.jpg` slots, whose contents equal the
corresponding inputs. -/
theorem C5_register_samples (fs : FS) (name : String) (imgs : List Path)
    (hreg : fs.isDir ["data", "registered"] = true)
    (hnf : fs.isFile (registeredDir name) = false)
    (hnd : ∀ k, k < imgs.length →
      fs.isDir (sampleDest (registeredDir name) (k + 1)) = false)
    (hsrc : ∀ q, q ∈ imgs → (fs.files q).isSome = true)
    (hdisj : ∀ q, q ∈ imgs → ∀ k, k < imgs.length →
      q ≠ sampleDest (registeredDir name) (k + 1))
    (hinj : ∀ j, j < imgs.length → ∀ k, k < imgs.length →
      sampleName (j + 1) = sampleName (k + 1) → j = k) :
    ∃ fs', register_person fs name imgs = .ok (fs', true) ∧
      fs'.isDir (registeredDir name) = true ∧
      (∀ k, ∀ hk : k < imgs.length,
        fs'.files (sampleDest (registeredDir name) (k + 1)) =
          fs.files (imgs.get ⟨k, hk⟩)) ∧
      (∀ q, q.dropLast = registeredDir name → fs.files q = none →
        ((fs'.files q).isSome = true ↔
          ∃ k, k < imgs.length ∧ q = sampleDest (registeredDir name) (k + 1))) := by
  have hz : ∀ k : Nat, 0 + k + 1 = k + 1 := fun k => by omega
  obtain ⟨fs1, hmk, hfiles1, hdirs1⟩ := mkdirExistOk_ok fs (registeredDir name) hnf
    (by simpa [registeredDir] using hreg)
  obtain ⟨fs2, hrun, hget, hframe, hdirs2⟩ := copySamples_ok (registeredDir name) imgs fs1 0
    (by rw [hdirs1]; simp)
    (by
      intro k hk
      rw [hz k, hdirs1]
      simp [decide_eq_false (sampleDest_ne_dir (registeredDir name) (k + 1)), hnd k hk])
    (by
      intro q hq
      rw [hfiles1]
      exact hsrc q hq)
    (by
      intro q hq k hk
      rw [hz k]
      exact hdisj q hq k hk)
    (by
      intro j hj k hk h
      rw [hz j, hz k] at h
      exact hinj j hj k hk h)
  refine ⟨fs2, ?_, ?_, ?_, ?_⟩
  · unfold register_person
    simp only [hmk, hrun]
  · rw [hdirs2, hdirs1]
    simp
  · intro k hk
    have h3 := hget k hk
    rw [hz k] at h3
    rw [h3, hfiles1]
  · intro q _ hnone
    constructor
    · intro hsome
      by_contra hex
      push_neg at hex
      have h4 : ∀ k, k < imgs.length → q ≠ sampleDest (registeredDir name) (k + 1) := by
        intro k hk heq
        exact (hex k hk) heq
      have h5 : ∀ k, k < imgs.length → q ≠ sampleDest (registeredDir name) (0 + k + 1) := by
        intro k hk
        rw [hz k]
        exact h4 k hk
      rw [hframe q h5, hfiles1, hnone] at hsome
      simp at hsome
    · rintro ⟨k, hk, rfl⟩
      have h3 := hget k hk
      rw [hz k] at h3
      rw [h3, hfiles1]
      exact hsrc (imgs.get ⟨k, hk⟩) (List.get_mem imgs k hk)

/-- Witness for C5: registering `alice` with the two uploads `a.jpg` and
`b.jpg` on a fresh filesystem. -/
theorem C5_witness :
    ∃ fs', register_person fsRegister "alice" [["up", "a.jpg"], ["up", "b.jpg"]] =
        .ok (fs', true) ∧
      fs'.isDir (registeredDir "alice") = true ∧
      (∀ k, ∀ hk : k < ([["up", "a.jpg"], ["up", "b.jpg"]] : List Path).length,
        fs'.files (sampleDest (registeredDir "alice") (k + 1)) =
          fsRegister.files (([["up", "a.jpg"], ["up", "b.jpg"]] : List Path).get ⟨k, hk⟩)) ∧
      (∀ q, q.dropLast = registeredDir "alice" → fsRegister.files q = none →
        ((fs'.files q).isSome = true ↔
          ∃ k, k < ([["up", "a.jpg"], ["up", "b.jpg"]] : List Path).length ∧
            q = sampleDest (registeredDir "alice") (k + 1))) :=
  C5_register_samples fsRegister "alice" [["up", "a.jpg"], ["up", "b.jpg"]]
    (by decide) (by decide) (by decide) (by decide) (by decide) (by decide)

/-- C6: re-registering a name writes only the destination slots
`sample_1.jpg .. sample_M.jpg` of the new call; every path distinct from
those — in particular any previously written higher-indexed sample file —
keeps its prior content byte for byte. -/
theorem C6_reregister_frame (fs : FS) (name : String) (imgs : List Path)
    (hreg : fs.isDir ["data", "registered"] = true)
    (hnf : fs.isFile (registeredDir name) = false)
    (hnd : ∀ k, k < imgs.length →
      fs.isDir (sampleDest (registeredDir name) (k + 1)) = false)
    (hsrc : ∀ q, q ∈ imgs → (fs.files q).isSome = true)
    (hdisj : ∀ q, q ∈ imgs → ∀ k, k < imgs.length →
      q ≠ sampleDest (registeredDir name) (k + 1))
    (hinj : ∀ j, j < imgs.length → ∀ k, k < imgs.length →
      sampleName (j + 1) = sampleName (k + 1) → j = k) :
    ∃ fs', register_person fs name imgs = .ok (fs', true) ∧
      ∀ q, (∀ k, k < imgs.length → q ≠ sampleDest (registeredDir name) (k + 1)) →
        fs'.files q = fs.files q := by
  have hz : ∀ k : Nat, 0 + k + 1 = k + 1 := fun k => by omega
  obtain ⟨fs1, hmk, hfiles1, hdirs1⟩ := mkdirExistOk_ok fs (registeredDir name) hnf
    (by simpa [registeredDir] using hreg)
  obtain ⟨fs2, hrun, hget, hframe, hdirs2⟩ := copySamples_ok (registeredDir name) imgs fs1 0
    (by rw [hdirs1]; simp)
    (by
      intro k hk
      rw [hz k, hdirs1]
      simp [decide_eq_false (sampleDest_ne_dir (registeredDir name) (k + 1)), hnd k hk])
    (by
      intro q hq
      rw [hfiles1]
      exact hsrc q hq)
    (by
      intro q hq k hk
      rw [hz k]
      exact hdisj q hq k hk)
    (by
      intro j hj k hk h
      rw [hz j, hz k] at h
      exact hinj j hj k hk h)
  refine ⟨fs2, ?_, ?_⟩
  · unfold register_person
    simp only [hmk, hrun]
  · intro q hq
    have h5 : ∀ k, k < imgs.length → q ≠ sampleDest (registeredDir name) (0 + k + 1) := by
      intro k hk
      rw [hz k]
      exact hq k hk
    rw [hframe q h5, hfiles1]

/-- Filesystem for the re-registration scenario: `alice` already has
`sample_1.jpg` and `sample_2.jpg`, and one new upload is waiting. -/
def fsReRegister : FS :=
  ⟨fun q => decide (q = ["data"] ∨ q = ["data", "registered"] ∨
      q = ["data", "categorized"] ∨ q = ["data", "registered", "alice"]),
   fun q =>
    if q = ["data", "registered", "alice", "sample_1.jpg"] then some [1]
    else if q = ["data", "registered", "alice", "sample_2.jpg"] then some [2]
    else if q = ["up", "new.jpg"] then some [9] else none⟩

/-- Witness for C6: re-registering `alice` with a single new sample leaves
the previously existing `sample_2.jpg` untouched. -/
theorem C6_witness :
    ∃ fs', register_person fsReRegister "alice" [["up", "new.jpg"]] = .ok (fs', true) ∧
      ∀ q, (∀ k, k < ([["up", "new.jpg"]] : List Path).length →
          q ≠ sampleDest (registeredDir "alice") (k + 1)) →
        fs'.files q = fsReRegister.files q :=
  C6_reregister_frame fsReRegister "alice" [["up", "new.jpg"]]
    (by decide) (by decide) (by decide) (by decide) (by decide) (by decide)

/-- C7: two successive `process_photo` calls on sources holding identical
bytes under the same original filename and the same label produce two result
records with the same destination path; the second copy overwrites the first
at that path and the destination afterwards holds the (shared) input bytes. -/
theorem C7_categorize_twice (cv : CV) (fs : FS) (p1 p2 : Path) (label : String)
    (b : Bytes)
    (hb1 : fs.files p1 = some b)
    (hb2 : fs.files p2 = some b)
    (hbase : basename p1 = basename p2)
    (hcat : fs.isDir ["data", "categorized"] = true)
    (hfl : fs.isFile (categorizedDir label) = false)
    (hfu : fs.isFile (categorizedDir "unknown") = false)
    (hdl : fs.isDir (categorizedDir label ++ [basename p1]) = false)
    (hdu : fs.isDir (categorizedDir "unknown" ++ [basename p1]) = false) :
    ∃ fs1 r1 fs2 r2,
      process_photo cv fs p1 label = .ok (fs1, r1) ∧
      process_photo cv fs1 p2 label = .ok (fs2, r2) ∧
      r2.dest_path = r1.dest_path ∧
      fs2.files r1.dest_path = some b := by
  by_cases hpos : 0 < (detect_faces_opencv cv fs p1).1.length
  · obtain ⟨fs1, hrun1, hfiles1, hdirs1⟩ := process_photo_ok cv fs p1 label label b hb1
      (by rw [if_pos hpos]) hcat hfl hdl
    rw [if_pos hpos] at hrun1
    have hp2b : fs1.files p2 = some b := by
      rw [hfiles1]
      by_cases h : p2 = categorizedDir label ++ [basename p1]
      · rw [if_pos h]
      · rw [if_neg h]
        exact hb2
    have hcongr : detect_faces_opencv cv fs1 p2 = detect_faces_opencv cv fs p1 :=
      detect_faces_congr cv fs1 fs p2 p1 (by rw [hp2b, hb1])
    have hpos2 : 0 < (detect_faces_opencv cv fs1 p2).1.length := by
      rw [hcongr]
      exact hpos
    have hcat1 : fs1.isDir ["data", "categorized"] = true := by
      rw [hdirs1, hcat]
      simp
    have hfl1 : fs1.isFile (categorizedDir label) = false := by
      unfold FS.isFile
      rw [hfiles1, if_neg (Ne.symm (append_single_ne (categorizedDir label) (basename p1)))]
      exact hfl
    have hdl1 : fs1.isDir (categorizedDir label ++ [basename p2]) = false := by
      rw [← hbase, hdirs1,
        decide_eq_false (append_single_ne (categorizedDir label) (basename p1)), hdl]
      simp
    obtain ⟨fs2, hrun2, hfiles2, _⟩ := process_photo_ok cv fs1 p2 label label b hp2b
      (by rw [if_pos hpos2]) hcat1 hfl1 hdl1
    rw [if_pos hpos2] at hrun2
    refine ⟨fs1, _, fs2, _, hrun1, hrun2, by simp [hbase], ?_⟩
    rw [show (⟨"success", some label, some (detect_faces_opencv cv fs p1).1.length,
        categorizedDir label ++ [basename p1]⟩ : ResultRecord).dest_path =
        categorizedDir label ++ [basename p1] from rfl, hfiles2, hbase]
    simp
  · obtain ⟨fs1, hrun1, hfiles1, hdirs1⟩ := process_photo_ok cv fs p1 label "unknown" b hb1
      (by rw [if_neg hpos]) hcat hfu hdu
    rw [if_neg hpos] at hrun1
    have hp2b : fs1.files p2 = some b := by
      rw [hfiles1]
      by_cases h : p2 = categorizedDir "unknown" ++ [basename p1]
      · rw [if_pos h]
      · rw [if_neg h]
        exact hb2
    have hcongr : detect_faces_opencv cv fs1 p2 = detect_faces_opencv cv fs p1 :=
      detect_faces_congr cv fs1 fs p2 p1 (by rw [hp2b, hb1])
    have hpos2 : ¬ 0 < (detect_faces_opencv cv fs1 p2).1.length := by
      rw [hcongr]
      exact hpos
    have hcat1 : fs1.isDir ["data", "categorized"] = true := by
      rw [hdirs1, hcat]
      simp
    have hfu1 : fs1.isFile (categorizedDir "unknown") = false := by
      unfold FS.isFile
      rw [hfiles1, if_neg (Ne.symm (append_single_ne (categorizedDir "unknown") (basename p1)))]
      exact hfu
    have hdu1 : fs1.isDir (categorizedDir "unknown" ++ [basename p2]) = false := by
      rw [← hbase, hdirs1,
        decide_eq_false (append_single_ne (categorizedDir "unknown") (basename p1)), hdu]
      simp
    obtain ⟨fs2, hrun2, hfiles2, _⟩ := process_photo_ok cv fs1 p2 label "unknown" b hp2b
      (by rw [if_neg hpos2]) hcat1 hfu1 hdu1
    rw [if_neg hpos2] at hrun2
    refine ⟨fs1, _, fs2, _, hrun1, hrun2, by simp [hbase], ?_⟩
    rw [show (⟨"no_faces", none, none,
        categorizedDir "unknown" ++ [basename p1]⟩ : ResultRecord).dest_path =
        categorizedDir "unknown" ++ [basename p1] from rfl, hfiles2, hbase]
    simp

/-- Witness for C7: the same temp path processed twice under label `alice`. -/
theorem C7_witness :
    ∃ fs1 r1 fs2 r2,
      process_photo cvPerByte fsExample ["tmp", "pic.jpg"] "alice" = .ok (fs1, r1) ∧
      process_photo cvPerByte fs1 ["tmp", "pic.jpg"] "alice" = .ok (fs2, r2) ∧
      r2.dest_path = r1.dest_path ∧
      fs2.files r1.dest_path = some [1, 2, 3] :=
  C7_categorize_twice cvPerByte fsExample ["tmp", "pic.jpg"] ["tmp", "pic.jpg"] "alice"
    [1, 2, 3] (by decide) (by decide) (by decide) (by decide) (by decide) (by decide)
    (by decide) (by decide)

/-- C8: invalid input — an empty person name, an empty sample list, or no
files selected for categorization — is rejected by the UI guards before any
operation runs: the filesystem is returned unchanged, no folder is created
and no file is written. -/
theorem C8_invalid_input_guard (cv : CV) (fs : FS) (tmp_dir : Path)
    (person_name : String) (samples : List (String × Bytes))
    (uploads : List (Bytes × Path)) (persons : List String) (selected : String)
    (h1 : person_name = "" ∨ samples = [])
    (h2 : uploads = []) :
    registerButton fs tmp_dir person_name samples = .ok (fs, false) ∧
    categorizeButton cv fs uploads persons selected = .ok (fs, []) := by
  constructor
  · unfold registerButton
    rw [if_pos h1]
  · unfold categorizeButton
    rw [if_pos (Or.inl h2)]

/-- Witness for C8 with an empty person name and no selected files. -/
theorem C8_witness :
    registerButton fsExample ["tmpdir"] "" [("a.jpg", [1])] = .ok (fsExample, false) ∧
    categorizeButton cvZero fsExample [] ["alice"] "alice" = .ok (fsExample, []) :=
  C8_invalid_input_guard cvZero fsExample ["tmpdir"] "" [("a.jpg", [1])] [] ["alice"]
    "alice" (Or.inl rfl) rfl

/-- C9: `__init__` creates `data`, `data/registered` and `data/categorized`.
Whenever it returns, all three directories exist and no file changed; when the
three directories are already present it returns the filesystem unchanged with
no error; and when none of the three paths is an existing file it succeeds. -/
theorem C9_init_idempotent (fs : FS) :
    (∀ fs', initCategorizer fs = .ok fs' →
      fs'.isDir ["data"] = true ∧ fs'.isDir ["data", "registered"] = true ∧
      fs'.isDir ["data", "categorized"] = true ∧ fs'.files = fs.files) ∧
    ((fs.isDir ["data"] = true ∧ fs.isDir ["data", "registered"] = true ∧
      fs.isDir ["data", "categorized"] = true) → initCategorizer fs = .ok fs) ∧
    ((fs.isFile ["data"] = false ∧ fs.isFile ["data", "registered"] = false ∧
      fs.isFile ["data", "categorized"] = false) →
      ∃ fs', initCategorizer fs = .ok fs') := by
  refine ⟨?_, ?_, ?_⟩
  · intro fs' h
    unfold initCategorizer at h
    cases h1 : fs.mkdirExistOk ["data"] with
    | error e => simp [h1] at h
    | ok fs1 =>
      simp only [h1] at h
      obtain ⟨ha, hfa, hma⟩ := mkdirExistOk_mono fs ["data"] fs1 h1
      cases h2 : fs1.mkdirExistOk ["data", "registered"] with
      | error e => simp [h2] at h
      | ok fs2 =>
        simp only [h2] at h
        obtain ⟨hb, hfb, hmb⟩ := mkdirExistOk_mono fs1 ["data", "registered"] fs2 h2
        obtain ⟨hc, hfc, hmc⟩ := mkdirExistOk_mono fs2 ["data", "categorized"] fs' h
        refine ⟨hmc _ (hmb _ ha), hmc _ hb, hc, ?_⟩
        rw [hfc, hfb, hfa]
  · rintro ⟨h1, h2, h3⟩
    unfold initCategorizer FS.mkdirExistOk
    simp [h1, h2, h3]
  · rintro ⟨h1, h2, h3⟩
    obtain ⟨fs1, hmk1, hf1, hd1⟩ := mkdirExistOk_ok fs ["data"] h1 (by simp [FS.isDir])
    obtain ⟨fs2, hmk2, hf2, hd2⟩ := mkdirExistOk_ok fs1 ["data", "registered"]
      (by unfold FS.isFile; rw [hf1]; exact h2)
      (by rw [show (["data", "registered"] : Path).dropLast = ["data"] from rfl, hd1]; simp)
    obtain ⟨fs3, hmk3, _, _⟩ := mkdirExistOk_ok fs2 ["data", "categorized"]
      (by unfold FS.isFile; rw [hf2, hf1]; exact h3)
      (by rw [show (["data", "categorized"] : Path).dropLast = ["data"] from rfl, hd2, hd1]
          simp)
    refine ⟨fs3, ?_⟩
    unfold initCategorizer
    simp only [hmk1, hmk2, hmk3]

/-- Witness for C9: on a filesystem already holding the three folders the
initialization returns it unchanged and raises no error. -/
theorem C9_witness : initCategorizer fsExample = .ok fsExample :=
  (C9_init_idempotent fsExample).2.1 ⟨by decide, by decide, by decide⟩

end PhotoCategorizer
